import Mathlib

/-!
Verification of the premium-key lifecycle engine.

This file gives a shallow embedding of the key-handling code:

* `src/utils/time_utils.py` — `parse_duration`, `format_duration`, `get_duration_str`;
* `src/data/keys_database.py` — the in-memory key store `KeysDatabase` (its `keys`
  dict is modelled as an association list with Python-dict semantics: lookup of the
  unique entry, assignment replaces in place or appends, deletion removes);
* `src/utils/sync_keys.py` — the two store-to-store synchronization functions;
* `src/cogs/key_management.py` — the redemption flow `KeyRedeemModal.on_submit`;
* `src/cogs/admin_commands.py` — the duration-modification modal and the
  confirmed administrative delete.

Timestamps (`datetime` values) are modelled as integers, durations as naturals.
Python truthiness tests on nullable user ids (`if key_data.get('user_id_redeemed'):`)
are modelled by `truthy`, which is false for `none` and for `some 0`.
-/

/-! ## Duration parsing (`src/utils/time_utils.py`) -/

/-- Seconds in each duration unit, as in the `unit == 'd'` chains of
`parse_duration` (`src/utils/time_utils.py`). -/
def unitSecs : Char → Nat
  | 'd' => 86400
  | 'h' => 3600
  | 'm' => 60
  | 's' => 1
  | 'w' => 604800
  | _ => 0

/-- Character class `[dhmsw]` of the duration regexes. -/
def isUnit (c : Char) : Bool :=
  c == 'd' || c == 'h' || c == 'm' || c == 's' || c == 'w'

/-- Numeric value of a run of ASCII digits, as Python `int(digits)`. -/
def digitsToNat (ds : List Char) : Nat :=
  ds.foldl (fun a c => a * 10 + (c.toNat - 48)) 0

/-- Scanner equivalent to `re.findall(r'(\d+[dhmsw])', s)`: walks the characters
keeping the current digit run; a unit letter right after a nonempty digit run
emits one segment (value, unit). Surrounding characters that match nothing are
skipped, exactly as `findall` does. -/
def findSegsAux : List Char → List Char → List (Nat × Char)
  | [], _ => []
  | c :: rest, acc =>
    if c.isDigit then
      findSegsAux rest (acc ++ [c])
    else if !acc.isEmpty && isUnit c then
      (digitsToNat acc, c) :: findSegsAux rest []
    else
      findSegsAux rest []

/-- All `\d+[dhmsw]` segments of the input, leftmost first. -/
def findSegs (l : List Char) : List (Nat × Char) :=
  findSegsAux l []

/-- Matcher for the anchored simple-path regex `^(\d+)([dhmsw])$` of
`parse_duration`: the whole input is one nonempty digit run followed by exactly
one unit letter. -/
def simpleMatch (l : List Char) : Option (Nat × Char) :=
  let ds := l.takeWhile Char.isDigit
  match l.dropWhile Char.isDigit with
  | [u] => if ds.isEmpty then none else if isUnit u then some (digitsToNat ds, u) else none
  | _ => none

/-- Python `duration_str.lower().strip()` on the character list. -/
def normalizeInput (s : String) : List Char :=
  (((s.data.map Char.toLower).dropWhile Char.isWhitespace).reverse.dropWhile
      Char.isWhitespace).reverse

/-- Failure kinds of the duration parser: `InvalidFormat` is the
"Invalid duration format" `ValueError`, `NonPositive` the
"Duration must be positive" one. -/
inductive DurationError
  | invalidFormat
  | nonPositive
deriving DecidableEq, Repr

/-- Model of `parse_duration` (`src/utils/time_utils.py`): lowercase and strip;
when `re.findall(r'(\d+[dhmsw])')` yields more than one segment, sum the
segments' second values with no further checks; otherwise require the whole
input to match `^(\d+)([dhmsw])$`, reject a zero value, and convert. -/
def parse_duration (s : String) : Except DurationError Nat :=
  let l := normalizeInput s
  let segs := findSegs l
  if 1 < segs.length then
    Except.ok (segs.foldl (fun acc p => acc + p.1 * unitSecs p.2) 0)
  else
    match simpleMatch l with
    | none => Except.error DurationError.invalidFormat
    | some (v, u) =>
      if v ≤ 0 then Except.error DurationError.nonPositive
      else Except.ok (v * unitSecs u)

/-- Model of `format_duration` (`src/utils/time_utils.py`). The first branch
always writes the plural "seconds", as the source's f-string does. -/
def format_duration (seconds : Nat) : String :=
  if seconds < 60 then
    toString seconds ++ " seconds"
  else if seconds < 3600 then
    let minutes := seconds / 60
    toString minutes ++ " minute" ++ (if minutes != 1 then "s" else "")
  else if seconds < 86400 then
    let hours := seconds / 3600
    toString hours ++ " hour" ++ (if hours != 1 then "s" else "")
  else if seconds < 604800 then
    let days := seconds / 86400
    toString days ++ " day" ++ (if days != 1 then "s" else "")
  else
    let weeks := seconds / 604800
    toString weeks ++ " week" ++ (if weeks != 1 then "s" else "")

/-- Size in seconds of the display unit `format_duration` picks for a value:
the largest of second/minute/hour/day/week not exceeding the bucket bounds of
its if-chain. -/
def fd_unit_size (seconds : Nat) : Nat :=
  if seconds < 60 then 1
  else if seconds < 3600 then 60
  else if seconds < 86400 then 3600
  else if seconds < 604800 then 86400
  else 604800

/-- Unit word (with leading space) `format_duration` prints for a value. -/
def fd_unit_name (seconds : Nat) : String :=
  if seconds < 60 then " second"
  else if seconds < 3600 then " minute"
  else if seconds < 86400 then " hour"
  else if seconds < 604800 then " day"
  else " week"

/-- Count `format_duration` displays: the value floor-divided by its display
unit. -/
def fd_count (seconds : Nat) : Nat :=
  seconds / fd_unit_size seconds

/-- Model of `get_duration_str` (`src/utils/time_utils.py`), the short label
stored in the database. -/
def get_duration_str (seconds : Nat) : String :=
  if seconds < 60 then toString seconds ++ "s"
  else if seconds < 3600 then toString (seconds / 60) ++ "m"
  else if seconds < 86400 then toString (seconds / 3600) ++ "h"
  else if seconds < 604800 then toString (seconds / 86400) ++ "d"
  else toString (seconds / 604800) ++ "w"

/-! ## The key store (`src/data/keys_database.py`) -/

/-- One record of the `keys` dict: the field bag built by
`KeysDatabase.add_key`. -/
structure KeyData where
  key : String
  duration_seconds : Nat
  duration_str : String
  expiry_date : Int
  user_id_created : Option Nat
  user_id_redeemed : Option Nat
  created_at : Int
deriving DecidableEq, Repr

/-- The `self.keys` dict, as an association list in insertion order. -/
abbrev Keys := List (String × KeyData)

/-- Dict lookup `self.keys.get(key)`. -/
def dictGet : Keys → String → Option KeyData
  | [], _ => none
  | (k', d) :: rest, k => if k' = k then some d else dictGet rest k

/-- Dict assignment `self.keys[key] = data`: replaces the entry in place when
the key is present, appends otherwise. -/
def dictSet (db : Keys) (k : String) (d : KeyData) : Keys :=
  if (dictGet db k).isSome then
    db.map (fun p => if p.1 = k then (k, d) else p)
  else db ++ [(k, d)]

/-- Dict deletion `del self.keys[key]`. -/
def dictDel (db : Keys) (k : String) : Keys :=
  db.filter (fun p => p.1 != k)

/-- Python truthiness of a nullable integer id: `None` and `0` are falsy. -/
def truthy : Option Nat → Bool
  | none => false
  | some v => v != 0

/-- Model of `KeysDatabase.add_key`: unconditionally writes the new field bag
under the key (no presence check) and returns it; `created_at` is the call
time, `duration_str` is recomputed from the seconds. -/
def add_key (db : Keys) (key : String) (duration_seconds : Nat) (expiry_date : Int)
    (user_id_created : Option Nat) (user_id_redeemed : Option Nat) (now : Int) :
    Keys × KeyData :=
  let data : KeyData :=
    { key := key
      duration_seconds := duration_seconds
      duration_str := get_duration_str duration_seconds
      expiry_date := expiry_date
      user_id_created := user_id_created
      user_id_redeemed := user_id_redeemed
      created_at := now }
  (dictSet db key data, data)

/-- Model of `KeysDatabase.get_key`. -/
def get_key (db : Keys) (key : String) : Option KeyData :=
  dictGet db key

/-- Model of `KeysDatabase.get_keys_for_user`: the records whose
`user_id_redeemed` equals the given id. -/
def get_keys_for_user (db : Keys) (user_id : Nat) : List KeyData :=
  (db.map Prod.snd).filter (fun d => d.user_id_redeemed == some user_id)

/-- Model of `KeysDatabase.has_active_keys`: whether any record redeemed by the
user has `expiry_date > now`. -/
def has_active_keys (db : Keys) (user_id : Nat) (now : Int) : Bool :=
  (get_keys_for_user db user_id).any (fun d => now < d.expiry_date)

/-- Model of `KeysDatabase.update_key_redeemed`: when the key is present, set
its `user_id_redeemed`; returns whether the key was found. -/
def update_key_redeemed (db : Keys) (key : String) (user_id_redeemed : Nat) :
    Bool × Keys :=
  match dictGet db key with
  | some d => (true, dictSet db key { d with user_id_redeemed := some user_id_redeemed })
  | none => (false, db)

/-- Model of `KeysDatabase.update_key_duration`: when the key is present,
rewrite `duration_seconds`, the recomputed `duration_str`, and `expiry_date`. -/
def update_key_duration (db : Keys) (key : String) (duration_seconds : Nat)
    (new_expiry_date : Int) : Bool × Keys :=
  match dictGet db key with
  | some d =>
    (true,
      dictSet db key
        { d with
          duration_seconds := duration_seconds
          duration_str := get_duration_str duration_seconds
          expiry_date := new_expiry_date })
  | none => (false, db)

/-- Model of `KeysDatabase.delete_key`. -/
def delete_key (db : Keys) (key : String) : Bool × Keys :=
  if (dictGet db key).isSome then (true, dictDel db key) else (false, db)

/-! ## Store-to-store synchronization (`src/utils/sync_keys.py`) -/

/-- Row of the secondary relational store: the `PremiumKey` model of
`src/app.py` (the autoincrement row id is irrelevant and omitted). -/
structure PremiumKey where
  key : String
  duration_seconds : Nat
  duration_str : String
  created_at : Int
  expiry_date : Int
  user_id_created : Option Nat
  user_id_redeemed : Option Nat
deriving DecidableEq, Repr

/-- Row built by `sync_json_to_db` for a JSON record it inserts into the
relational store (the `PremiumKey(...)` constructor call in the source; the
source's `created_at or now` fallback never fires here because `created_at`
is total in the model). -/
def premiumRowOf (p : String × KeyData) : PremiumKey :=
  { key := p.1
    duration_seconds := p.2.duration_seconds
    duration_str := p.2.duration_str
    created_at := p.2.created_at
    expiry_date := p.2.expiry_date
    user_id_created := p.2.user_id_created
    user_id_redeemed := p.2.user_id_redeemed }

/-- Model of `sync_json_to_db` (`src/utils/sync_keys.py`): for each record of
the JSON store in insertion order, insert a corresponding row into the
relational store when no row with that key exists; existing rows are never
touched. -/
def sync_json_to_db (json : Keys) (dbRows : List PremiumKey) : List PremiumKey :=
  json.foldl
    (fun rows p =>
      if rows.any (fun r => r.key == p.1) then rows
      else rows ++ [premiumRowOf p])
    dbRows

/-- Model of `sync_db_to_json` (`src/utils/sync_keys.py`): for each row of the
relational store, insert it into the JSON store via `add_key` when the key is
absent there; when the key is present and the stored `user_id_redeemed`
differs from the row's, overwrite the JSON record's `user_id_redeemed` with
the row's value. `now` is the call time `add_key` stamps on inserted records.
`sdjStep` is the body of the per-row loop, `sync_db_to_json` the whole
function. -/
def sdjStep (now : Int) (json : Keys) (row : PremiumKey) : Keys :=
  match dictGet json row.key with
  | none =>
    (add_key json row.key row.duration_seconds row.expiry_date
        row.user_id_created row.user_id_redeemed now).1
  | some jd =>
    if jd.user_id_redeemed != row.user_id_redeemed then
      dictSet json row.key { jd with user_id_redeemed := row.user_id_redeemed }
    else json

def sync_db_to_json (json : Keys) (dbRows : List PremiumKey) (now : Int) : Keys :=
  dbRows.foldl (sdjStep now) json

/-! ## Redemption flow (`src/cogs/key_management.py`, `KeyRedeemModal.on_submit`) -/

/-- Outcome of a redemption attempt, one constructor per early-return branch of
`KeyRedeemModal.on_submit`. -/
inductive RedeemResult
  | notFound
  | alreadyRedeemed
  | expired
  | roleNotFound
  | success
deriving DecidableEq, Repr

/-- Model of `KeyRedeemModal.on_submit` acting on the cog's in-memory store:
look the key up (absent → not-found); a truthy `user_id_redeemed` → already
redeemed; `now > expiry_date` → expired; a missing premium role aborts before
any store write; otherwise `update_key_redeemed` binds the record to the
redeemer and the role grant (`add_roles`) is signalled afterwards — the third
component records that signal. The file-level `sync_db_to_json` call between
the two touches only the backing file, not this in-memory store. -/
def redeem_on_submit (db : Keys) (key : String) (uid : Nat) (now : Int)
    (roleExists : Bool) : RedeemResult × Keys × Bool :=
  match get_key db key with
  | none => (RedeemResult.notFound, db, false)
  | some kd =>
    if truthy kd.user_id_redeemed then (RedeemResult.alreadyRedeemed, db, false)
    else if kd.expiry_date < now then (RedeemResult.expired, db, false)
    else if !roleExists then (RedeemResult.roleNotFound, db, false)
    else (RedeemResult.success, (update_key_redeemed db key uid).2, true)

/-! ## Admin flows (`src/cogs/admin_commands.py`) -/

/-- Model of `DurationModal.on_submit`: parse the entered duration, reject a
non-positive result, compute the new expiry as call time plus the parsed
seconds, and apply `update_key_duration`. Returns the updated store, the
parsed seconds and the new expiry. -/
def duration_modal_submit (db : Keys) (key : String) (input : String) (now : Int) :
    Except DurationError (Keys × Nat × Int) :=
  match parse_duration input with
  | Except.error e => Except.error e
  | Except.ok duration_seconds =>
    if duration_seconds ≤ 0 then Except.error DurationError.nonPositive
    else
      let new_expiry_date : Int := now + duration_seconds
      Except.ok ((update_key_duration db key duration_seconds new_expiry_date).2,
        duration_seconds, new_expiry_date)

/-- Model of `ConfirmationView.confirm_button`: delete the key, then — only
when the captured `user_id_redeemed` is truthy and `has_active_keys` on the
post-delete store is false — enter the role-removal branch. The boolean
records whether role removal was triggered. -/
def confirm_delete (db : Keys) (kd : KeyData) (now : Int) : Keys × Bool :=
  let db1 := (delete_key db kd.key).2
  let removal :=
    if truthy kd.user_id_redeemed then
      match kd.user_id_redeemed with
      | some rid => !has_active_keys db1 rid now
      | none => false
    else false
  (db1, removal)

/-! ## Dictionary lemmas -/

theorem dictGet_append_of_none {a b : Keys} {k : String} (h : dictGet a k = none) :
    dictGet (a ++ b) k = dictGet b k := by
  induction a with
  | nil => rfl
  | cons p rest ih =>
    obtain ⟨k', d⟩ := p
    by_cases hk : k' = k
    · simp [dictGet, hk] at h
    · simp [dictGet, hk] at h ⊢
      exact ih h

theorem dictGet_cons (k0 : String) (d0 : KeyData) (rest : Keys) (k : String) :
    dictGet ((k0, d0) :: rest) k = if k0 = k then some d0 else dictGet rest k := rfl

theorem dictGet_map_set {db : Keys} {k : String} {d : KeyData}
    (h : (dictGet db k).isSome) :
    dictGet (db.map (fun p => if p.1 = k then (k, d) else p)) k = some d := by
  induction db with
  | nil => simp [dictGet] at h
  | cons p rest ih =>
    obtain ⟨k0, d0⟩ := p
    by_cases hk : k0 = k
    · subst hk
      simp [List.map, dictGet_cons]
    · have h' : (dictGet rest k).isSome := by
        simpa [dictGet_cons, hk] using h
      simp [List.map, dictGet_cons, hk, ih h']

theorem dictGet_map_set_ne {db : Keys} {k k' : String} {d : KeyData}
    (h : k' ≠ k) :
    dictGet (db.map (fun p => if p.1 = k then (k, d) else p)) k' = dictGet db k' := by
  induction db with
  | nil => rfl
  | cons p rest ih =>
    obtain ⟨k0, d0⟩ := p
    by_cases hk : k0 = k
    · subst hk
      simp [List.map, dictGet_cons, Ne.symm h, ih]
    · by_cases hk' : k0 = k'
      · simp [List.map, dictGet_cons, hk, hk', h]
      · simp [List.map, dictGet_cons, hk, hk', ih]

theorem dictGet_dictSet_self (db : Keys) (k : String) (d : KeyData) :
    dictGet (dictSet db k d) k = some d := by
  unfold dictSet
  by_cases h : (dictGet db k).isSome
  · simp [h, dictGet_map_set h]
  · have hnone : dictGet db k = none := by
      cases hg : dictGet db k with
      | none => rfl
      | some v => simp [hg] at h
    simp [h, dictGet_append_of_none hnone, dictGet_cons]

theorem dictGet_dictSet_ne (db : Keys) (k k' : String) (d : KeyData)
    (h : k' ≠ k) : dictGet (dictSet db k d) k' = dictGet db k' := by
  unfold dictSet
  by_cases hs : (dictGet db k).isSome
  · simp [hs, dictGet_map_set_ne h]
  · simp only [hs, if_neg, Bool.false_eq_true, not_false_eq_true]
    induction db with
    | nil => simp [dictGet, dictGet_cons, Ne.symm h]
    | cons p rest ih =>
      obtain ⟨k0, d0⟩ := p
      by_cases hk' : k0 = k'
      · simp [List.cons_append, dictGet_cons, hk']
      · have hs' : ¬(dictGet rest k).isSome := by
          by_cases hk : k0 = k
          · subst hk
            simp [dictGet_cons] at hs
          · simpa [dictGet_cons, hk] using hs
        simp [List.cons_append, dictGet_cons, hk', ih hs']

theorem dictGet_dictDel_self (db : Keys) (k : String) :
    dictGet (dictDel db k) k = none := by
  induction db with
  | nil => rfl
  | cons p rest ih =>
    obtain ⟨k0, d0⟩ := p
    by_cases hk : k0 = k
    · simpa [dictDel, List.filter_cons, hk] using ih
    · simpa [dictDel, List.filter_cons, hk, dictGet_cons] using ih

theorem dictGet_dictDel_ne (db : Keys) (k k' : String) (h : k' ≠ k) :
    dictGet (dictDel db k) k' = dictGet db k' := by
  induction db with
  | nil => rfl
  | cons p rest ih =>
    obtain ⟨k0, d0⟩ := p
    by_cases hk : k0 = k
    · subst hk
      simpa [dictDel, List.filter_cons, dictGet_cons, Ne.symm h] using ih
    · by_cases hk' : k0 = k'
      · simp [dictDel, List.filter_cons, hk, dictGet_cons, hk', h]
      · simpa [dictDel, List.filter_cons, hk, dictGet_cons, hk'] using ih

/-! ## Parser lemmas -/

theorem isUnit_not_digit {u : Char} (h : isUnit u = true) : u.isDigit = false := by
  simp only [isUnit, Bool.or_eq_true, beq_iff_eq] at h
  rcases h with ((((h | h) | h) | h) | h) <;> subst h <;> decide

theorem findSegsAux_digits (ds : List Char) (u : Char) :
    ∀ acc : List Char, (∀ c ∈ ds, c.isDigit = true) → isUnit u = true →
      acc ++ ds ≠ [] →
      findSegsAux (ds ++ [u]) acc = [(digitsToNat (acc ++ ds), u)] := by
  induction ds with
  | nil =>
    intro acc _ hu hne
    have hud : u.isDigit = false := isUnit_not_digit hu
    have hacc : acc ≠ [] := by simpa using hne
    simp [findSegsAux, hud, hu, List.isEmpty_iff, hacc]
  | cons d ds ih =>
    intro acc hds hu _
    have hd : d.isDigit = true := hds d (by simp)
    have : findSegsAux (ds ++ [u]) (acc ++ [d]) =
        [(digitsToNat ((acc ++ [d]) ++ ds), u)] :=
      ih (acc ++ [d]) (fun c hc => hds c (by simp [hc])) hu (by simp)
    simpa [findSegsAux, hd, List.append_assoc] using this

theorem takeWhile_digits_append {ds : List Char} {u : Char}
    (hds : ∀ c ∈ ds, c.isDigit = true) (hu : u.isDigit = false) :
    (ds ++ [u]).takeWhile Char.isDigit = ds ∧
    (ds ++ [u]).dropWhile Char.isDigit = [u] := by
  induction ds with
  | nil => simp [List.takeWhile, List.dropWhile, hu]
  | cons d ds ih =>
    have hd : d.isDigit = true := hds d (by simp)
    have := ih (fun c hc => hds c (by simp [hc]))
    simp [List.takeWhile_cons, List.dropWhile_cons, hd, this.1, this.2]

theorem simpleMatch_digits {ds : List Char} {u : Char}
    (hne : ds ≠ []) (hds : ∀ c ∈ ds, c.isDigit = true) (hu : isUnit u = true) :
    simpleMatch (ds ++ [u]) = some (digitsToNat ds, u) := by
  have hud := isUnit_not_digit hu
  obtain ⟨ht, hd⟩ := takeWhile_digits_append hds hud
  simp [simpleMatch, ht, hd, hu, List.isEmpty_iff, hne]

theorem simpleMatch_some_findSegs {l : List Char} {n : Nat} {u : Char}
    (h : simpleMatch l = some (n, u)) : findSegs l = [(n, u)] := by
  unfold simpleMatch at h
  cases hdrop : l.dropWhile Char.isDigit with
  | nil => simp [hdrop] at h
  | cons u0 rest =>
    cases rest with
    | cons _ _ => simp [hdrop] at h
    | nil =>
      simp only [hdrop] at h
      by_cases he : (l.takeWhile Char.isDigit).isEmpty
      · simp [he] at h
      · by_cases hu : isUnit u0
        · simp [he, hu] at h
          obtain ⟨hn, hu0⟩ := h
          have hl : l = l.takeWhile Char.isDigit ++ [u0] := by
            conv_lhs => rw [← List.takeWhile_append_dropWhile Char.isDigit l]
            rw [hdrop]
          have hds : ∀ c ∈ l.takeWhile Char.isDigit, c.isDigit = true :=
            fun c hc => List.mem_takeWhile_imp hc
          have hne : l.takeWhile Char.isDigit ≠ [] := by
            simpa [List.isEmpty_iff] using he
          rw [hl]
          unfold findSegs
          rw [findSegsAux_digits _ _ [] hds hu (by simpa using hne)]
          simp [hn, hu0]
        · simp [he, hu] at h

theorem parse_duration_single (s : String) (ds : List Char) (u : Char)
    (hne : ds ≠ []) (hds : ∀ c ∈ ds, c.isDigit = true) (hu : isUnit u = true)
    (hs : normalizeInput s = ds ++ [u]) :
    parse_duration s =
      if digitsToNat ds = 0 then Except.error DurationError.nonPositive
      else Except.ok (digitsToNat ds * unitSecs u) := by
  have hseg : findSegs (ds ++ [u]) = [(digitsToNat ds, u)] := by
    unfold findSegs
    rw [findSegsAux_digits ds u [] hds hu (by simpa using hne)]
    simp
  have hsm := simpleMatch_digits hne hds hu
  simp only [parse_duration, hs, hseg, hsm, List.length_cons, List.length_nil]
  simp [Nat.le_zero]

theorem parse_duration_low_segments (s : String)
    (h : (findSegs (normalizeInput s)).length ≤ 1)
    (hsm : simpleMatch (normalizeInput s) = none) :
    parse_duration s = Except.error DurationError.invalidFormat := by
  have : ¬ 1 < (findSegs (normalizeInput s)).length := by omega
  simp [parse_duration, this, hsm]

theorem format_duration_decompose (v : Nat) (h : 60 ≤ v) :
    format_duration v =
      toString (fd_count v) ++ fd_unit_name v ++
        (if fd_count v != 1 then "s" else "") := by
  unfold format_duration fd_count fd_unit_size fd_unit_name
  have h60 : ¬ v < 60 := by omega
  by_cases h1 : v < 3600
  · simp [h60, h1]
  · by_cases h2 : v < 86400
    · simp [h60, h1, h2]
    · by_cases h3 : v < 604800
      · simp [h60, h1, h2, h3]
      · simp [h60, h1, h2, h3]

/-! ## Claim C5 — duration-parse rejection -/

/-- C5 (amended): for inputs with at most one recognizable digits-unit segment,
`parse_duration` fails with InvalidFormat when the normalized string does not
consist of exactly one digit run followed by one unit letter (empty input,
wrong characters, or trailing characters), and fails with NonPositive when the
single segment's value is zero; in particular parse("0d") fails NonPositive and
parse("abc") fails InvalidFormat. Inputs containing two or more recognizable
segments bypass this rejection entirely: their segments are summed, characters
matching no segment are ignored, and no positivity check runs. -/
theorem claim_C5_parse_rejection :
    (∀ s ds u, ds ≠ [] → (∀ c ∈ ds, c.isDigit = true) → isUnit u = true →
      normalizeInput s = ds ++ [u] → digitsToNat ds = 0 →
      parse_duration s = Except.error DurationError.nonPositive) ∧
    (∀ s, (findSegs (normalizeInput s)).length ≤ 1 →
      simpleMatch (normalizeInput s) = none →
      parse_duration s = Except.error DurationError.invalidFormat) ∧
    parse_duration "" = Except.error DurationError.invalidFormat ∧
    parse_duration "0d" = Except.error DurationError.nonPositive ∧
    parse_duration "abc" = Except.error DurationError.invalidFormat ∧
    parse_duration "7dx" = Except.error DurationError.invalidFormat ∧
    parse_duration "0d0h" = Except.ok 0 ∧
    parse_duration "1d1hxyz" = Except.ok 90000 := by
  refine ⟨?_, ?_, rfl, rfl, rfl, rfl, rfl, rfl⟩
  · intro s ds u hne hds hu hs h0
    rw [parse_duration_single s ds u hne hds hu hs]
    simp [h0]
  · intro s h hsm
    exact parse_duration_low_segments s h hsm

/-- C5 counterexample: the claim as stated requires NonPositive for a parsed
value of zero and InvalidFormat for non-matching trailing characters on
multi-segment inputs too, but the multi-segment path of `parse_duration`
performs neither check: "0d0m" parses to 0 and "5dxyz2h" ignores "xyz" and
parses to 439200. -/
theorem claim_C5_counterexample :
    parse_duration "0d0m" = Except.ok 0 ∧
    parse_duration "5dxyz2h" = Except.ok 439200 := by
  exact ⟨rfl, rfl⟩

/-- C5 witness: concrete applications of the quantified parts of the theorem. -/
theorem claim_C5_witness :
    parse_duration "00m" = Except.error DurationError.nonPositive ∧
    parse_duration "3dd" = Except.error DurationError.invalidFormat := by
  constructor
  · exact claim_C5_parse_rejection.1 "00m" ['0', '0'] 'm'
      (by decide) (by decide) (by decide) (by decide) (by decide)
  · exact claim_C5_parse_rejection.2.1 "3dd" (by decide) (by decide)

/-! ## Claim C7 — parse/format round trip -/

/-- C7 (amended): for every valid single-segment duration string, `parse`
yields the segment's value in seconds, and `format_duration` renders that
value floor-divided by the largest display unit not exceeding it; the rendered
string expresses the parsed magnitude exactly if and only if that display unit
divides the value. In particular "7d" parses to 604800, which formats back as
"1 week" (the canonical largest whole unit of that magnitude), not as
"7 days"; and a non-exact value such as 5400 ("90m") truncates to "1 hour". -/
theorem claim_C7_roundtrip :
    (∀ s ds u, ds ≠ [] → (∀ c ∈ ds, c.isDigit = true) → isUnit u = true →
      normalizeInput s = ds ++ [u] → 0 < digitsToNat ds →
      parse_duration s = Except.ok (digitsToNat ds * unitSecs u)) ∧
    (∀ v, 60 ≤ v → format_duration v =
      toString (fd_count v) ++ fd_unit_name v ++
        (if fd_count v != 1 then "s" else "")) ∧
    (∀ v, fd_count v * fd_unit_size v = v ↔ fd_unit_size v ∣ v) ∧
    parse_duration "7d" = Except.ok 604800 ∧
    format_duration 604800 = "1 week" := by
  refine ⟨?_, format_duration_decompose, ?_, rfl, by decide⟩
  · intro s ds u hne hds hu hs h0
    rw [parse_duration_single s ds u hne hds hu hs]
    simp [Nat.pos_iff_ne_zero.mp h0]
  · intro v
    constructor
    · intro h
      exact Dvd.intro (fd_count v) (by linarith [h, Nat.mul_comm (fd_count v) (fd_unit_size v)])
    · intro h
      exact Nat.div_mul_cancel h

/-- C7 counterexample: two failures of the claim as stated. Its concrete
example is wrong: "7d" parses to 604800 but formats back as "1 week", not
"7 days" (604800 falls in the weeks branch of `format_duration`). Moreover the
general sentence fails: "90m" parses to 5400 seconds and formats as "1 hour",
whose magnitude is fd_count 5400 * fd_unit_size 5400 = 3600 ≠ 5400, not the
parsed one. -/
theorem claim_C7_counterexample :
    parse_duration "7d" = Except.ok 604800 ∧
    format_duration 604800 ≠ "7 days" ∧
    parse_duration "90m" = Except.ok 5400 ∧
    format_duration 5400 = "1 hour" ∧
    fd_count 5400 * fd_unit_size 5400 ≠ 5400 := by
  exact ⟨rfl, by decide, rfl, rfl, by decide⟩

/-- C7 witness: concrete applications of the quantified parts of the theorem. -/
theorem claim_C7_witness :
    parse_duration "3w" = Except.ok (digitsToNat ['3'] * unitSecs 'w') ∧
    format_duration 7200 =
      toString (fd_count 7200) ++ fd_unit_name 7200 ++
        (if fd_count 7200 != 1 then "s" else "") ∧
    (fd_count 7200 * fd_unit_size 7200 = 7200 ↔ fd_unit_size 7200 ∣ 7200) := by
  refine ⟨?_, claim_C7_roundtrip.2.1 7200 (by decide), claim_C7_roundtrip.2.2.1 7200⟩
  exact claim_C7_roundtrip.1 "3w" ['3'] 'w'
    (by decide) (by decide) (by decide) (by decide) (by decide)

/-! ## Claim C2 — add and duplicates -/

/-- C2 (amended): `add_key` performs no duplicate check and never fails: it
unconditionally writes the freshly built record under the id, so if the id is
absent a new record is inserted and if a record with that id is already
present it is overwritten (the existing record is not preserved); records
under other ids are unchanged. Uniqueness rests entirely on the callers'
collision-free random identifiers. -/
theorem claim_C2_add_overwrites (db : Keys) (k : String) (dur : Nat)
    (exp now : Int) (cr rd : Option Nat) :
    dictGet (add_key db k dur exp cr rd now).1 k =
      some { key := k, duration_seconds := dur,
             duration_str := get_duration_str dur, expiry_date := exp,
             user_id_created := cr, user_id_redeemed := rd, created_at := now } ∧
    ∀ k', k' ≠ k → dictGet (add_key db k dur exp cr rd now).1 k' = dictGet db k' := by
  constructor
  · simp [add_key, dictGet_dictSet_self]
  · intro k' h
    simp [add_key, dictGet_dictSet_ne _ _ _ _ h]

/-- C2 counterexample: the claim as stated says that when the id is already
present, add fails with DuplicateKey and leaves the existing record unchanged;
but adding over a present id replaces the stored record (here the already
redeemed record is replaced by a fresh unredeemed one). -/
theorem claim_C2_counterexample :
    dictGet (add_key [("k", { key := "k", duration_seconds := 60,
                              duration_str := "1m", expiry_date := 50,
                              user_id_created := some 1,
                              user_id_redeemed := some 5,
                              created_at := 0 })] "k"
        120 400 (some 1) none 300).1 "k" ≠
      some { key := "k", duration_seconds := 60, duration_str := "1m",
             expiry_date := 50, user_id_created := some 1,
             user_id_redeemed := some 5, created_at := 0 } := by
  decide

/-- C2 witness: concrete application of the theorem. -/
theorem claim_C2_witness :
    dictGet (add_key [] "a" 60 100 none none 0).1 "b" = dictGet ([] : Keys) "b" := by
  exact (claim_C2_add_overwrites [] "a" 60 100 0 none none).2 "b" (by decide)

/-! ## Claim C10 — stored duration label -/

/-- C10: both store operations that write `duration_seconds` — creation via
`add_key` and modification via `update_key_duration` — also store
`get_duration_str` of that seconds value as the record's `duration_str`, so
every record they produce or update satisfies
duration_str = get_duration_str duration_seconds. -/
theorem claim_C10_duration_label (db : Keys) (k : String) (dur : Nat)
    (exp now : Int) (cr rd : Option Nat) :
    ((add_key db k dur exp cr rd now).2.duration_str =
      get_duration_str (add_key db k dur exp cr rd now).2.duration_seconds) ∧
    (dictGet (add_key db k dur exp cr rd now).1 k =
      some (add_key db k dur exp cr rd now).2) ∧
    (∀ d0, dictGet db k = some d0 →
      ∃ d', dictGet (update_key_duration db k dur exp).2 k = some d' ∧
        d'.duration_seconds = dur ∧ d'.duration_str = get_duration_str dur) := by
  refine ⟨rfl, by simp [add_key, dictGet_dictSet_self], ?_⟩
  intro d0 h
  refine ⟨{ d0 with duration_seconds := dur,
                    duration_str := get_duration_str dur,
                    expiry_date := exp }, ?_, rfl, rfl⟩
  simp [update_key_duration, h, dictGet_dictSet_self]

/-- C10 witness: concrete application of the theorem. -/
theorem claim_C10_witness :
    ∃ d', dictGet (update_key_duration [("k", { key := "k", duration_seconds := 60,
                                                duration_str := "1m",
                                                expiry_date := 50,
                                                user_id_created := none,
                                                user_id_redeemed := none,
                                                created_at := 0 })]
        "k" 7200 9000).2 "k" = some d' ∧
      d'.duration_seconds = 7200 ∧ d'.duration_str = get_duration_str 7200 := by
  exact (claim_C10_duration_label _ "k" 7200 9000 0 none none).2.2 _ rfl

/-! ## Claim C6 — duration modification restarts from call time -/

/-- C6: for every existing record and every valid positive parsed duration,
the duration modal computes the new expiry as the call time plus the parsed
seconds and stores it via `update_key_duration`, together with the new
`duration_seconds`; the resulting record keeps all other fields of the old
one, and the new expiry is independent of the record's original `created_at`
and previous `expiry_date`. -/
theorem claim_C6_modify_duration (db : Keys) (key input : String) (now : Int)
    (d0 : KeyData) (secs : Nat)
    (hget : dictGet db key = some d0)
    (hparse : parse_duration input = Except.ok secs) (hpos : 0 < secs) :
    duration_modal_submit db key input now =
      Except.ok ((update_key_duration db key secs (now + secs)).2, secs, now + secs) ∧
    dictGet (update_key_duration db key secs (now + secs)).2 key =
      some { d0 with duration_seconds := secs,
                     duration_str := get_duration_str secs,
                     expiry_date := now + (secs : Int) } := by
  constructor
  · have hn : ¬ secs ≤ 0 := by omega
    simp [duration_modal_submit, hparse, hn]
  · simp [update_key_duration, hget, dictGet_dictSet_self]

/-- C6 witness: concrete application of the theorem; the original record's
creation time 11 and old expiry 77 play no role in the new expiry 1000+120. -/
theorem claim_C6_witness :
    duration_modal_submit [("k", { key := "k", duration_seconds := 60,
                                   duration_str := "1m", expiry_date := 77,
                                   user_id_created := none,
                                   user_id_redeemed := none,
                                   created_at := 11 })] "k" "2m" 1000 =
      Except.ok ((update_key_duration [("k", { key := "k", duration_seconds := 60,
                                               duration_str := "1m",
                                               expiry_date := 77,
                                               user_id_created := none,
                                               user_id_redeemed := none,
                                               created_at := 11 })]
          "k" 120 (1000 + 120)).2, 120, 1000 + 120) := by
  exact (claim_C6_modify_duration [("k", { key := "k", duration_seconds := 60,
                                           duration_str := "1m", expiry_date := 77,
                                           user_id_created := none,
                                           user_id_redeemed := none,
                                           created_at := 11 })] "k" "2m" 1000
    { key := "k", duration_seconds := 60, duration_str := "1m", expiry_date := 77,
      user_id_created := none, user_id_redeemed := none, created_at := 11 }
    120 rfl rfl (by decide)).1

/-! ## Claim C8 — active-key query -/

theorem has_active_keys_iff (db : Keys) (uid : Nat) (now : Int) :
    has_active_keys db uid now = true ↔
      ∃ p ∈ db, p.2.user_id_redeemed = some uid ∧ now < p.2.expiry_date := by
  simp only [has_active_keys, get_keys_for_user, List.any_eq_true, List.mem_filter,
    List.mem_map, beq_iff_eq, decide_eq_true_eq]
  constructor
  · rintro ⟨d, ⟨⟨p, hp, rfl⟩, hred⟩, hlt⟩
    exact ⟨p, hp, hred, hlt⟩
  · rintro ⟨p, hp, hred, hlt⟩
    exact ⟨p.2, ⟨⟨p, hp, rfl⟩, hred⟩, hlt⟩

theorem dictGet_isSome_of_mem {db : Keys} {p : String × KeyData} (h : p ∈ db) :
    (dictGet db p.1).isSome := by
  induction db with
  | nil => cases h
  | cons q rest ih =>
    obtain ⟨k0, d0⟩ := q
    rcases List.mem_cons.mp h with h' | h'
    · subst h'
      simp [dictGet_cons]
    · by_cases hk : k0 = p.1
      · simp [dictGet_cons, hk]
      · simpa [dictGet_cons, hk] using ih h'

/-- C8: `has_active_keys db uid now` is true exactly when some record of the
store has `user_id_redeemed = uid` and `expiry_date` strictly greater than
`now`; and if every such active record of the user sits under one key, then
after deleting that key `has_active_keys` for the user is false — in
particular deleting a user's sole active key makes it false. -/
theorem claim_C8_has_active (db : Keys) (uid : Nat) (now : Int) :
    (has_active_keys db uid now = true ↔
      ∃ p ∈ db, p.2.user_id_redeemed = some uid ∧ now < p.2.expiry_date) ∧
    (∀ k, (∀ p ∈ db, p.2.user_id_redeemed = some uid → now < p.2.expiry_date →
        p.1 = k) →
      has_active_keys (delete_key db k).2 uid now = false) := by
  refine ⟨has_active_keys_iff db uid now, ?_⟩
  intro k hk
  cases hb : has_active_keys (delete_key db k).2 uid now
  · rfl
  · exfalso
    obtain ⟨p, hpmem, hred, hlt⟩ := (has_active_keys_iff _ _ _).mp hb
    unfold delete_key at hpmem
    by_cases hp : (dictGet db k).isSome
    · simp only [hp, if_pos] at hpmem
      have hmem : p ∈ db ∧ (p.1 != k) = true := by
        simpa [dictDel, List.mem_filter] using hpmem
      exact absurd (hk p hmem.1 hred hlt) (by simpa using hmem.2)
    · simp only [hp, if_neg, Bool.false_eq_true, not_false_eq_true] at hpmem
      have := hk p hpmem hred hlt
      exact hp (by simpa [← this] using dictGet_isSome_of_mem hpmem)

/-- C8 witness: a store whose only record redeemed by user 5 and active at
time 100 sits under key "k"; deleting "k" makes the query false. -/
theorem claim_C8_witness :
    has_active_keys (delete_key [("k", { key := "k", duration_seconds := 60,
                                         duration_str := "1m", expiry_date := 500,
                                         user_id_created := some 1,
                                         user_id_redeemed := some 5,
                                         created_at := 0 })] "k").2 5 100 = false := by
  exact (claim_C8_has_active _ 5 100).2 "k" (by decide)

/-! ## Claim C9 — conditional role removal on delete -/

/-- C9: in the confirmed administrative delete, the role-removal branch is
entered only when the captured redeemer id is truthy and `has_active_keys` for
that redeemer — evaluated on the store after the key was deleted — is false;
for every redeemer who still holds another active key at that moment, no role
removal is triggered. -/
theorem claim_C9_delete_role_gate (db : Keys) (kd : KeyData) (now : Int) :
    ((confirm_delete db kd now).2 = true →
      truthy kd.user_id_redeemed = true ∧
      ∀ rid, kd.user_id_redeemed = some rid →
        has_active_keys (delete_key db kd.key).2 rid now = false) ∧
    (∀ rid, kd.user_id_redeemed = some rid →
      has_active_keys (delete_key db kd.key).2 rid now = true →
      (confirm_delete db kd now).2 = false) := by
  constructor
  · intro h
    cases hr : kd.user_id_redeemed with
    | none => simp [confirm_delete, hr, truthy] at h
    | some rid0 =>
      by_cases h0 : rid0 = 0
      · simp [confirm_delete, hr, truthy, h0] at h
      · constructor
        · simp [truthy, hr, h0]
        · intro rid hrid
          cases hrid
          simp only [confirm_delete, hr, truthy] at h
          simpa [h0] using h
  · intro rid hrid hact
    by_cases h0 : rid = 0
    · simp [confirm_delete, hrid, truthy, h0]
    · simp [confirm_delete, hrid, truthy, h0, hact]

/-- C9 witness: deleting the redeemed key "k" of user 5, who still holds the
active key "j", does not trigger role removal. -/
theorem claim_C9_witness :
    (confirm_delete [("k", { key := "k", duration_seconds := 60,
                             duration_str := "1m", expiry_date := 50,
                             user_id_created := some 1, user_id_redeemed := some 5,
                             created_at := 0 }),
                     ("j", { key := "j", duration_seconds := 60,
                             duration_str := "1m", expiry_date := 900,
                             user_id_created := some 1, user_id_redeemed := some 5,
                             created_at := 0 })]
      { key := "k", duration_seconds := 60, duration_str := "1m", expiry_date := 50,
        user_id_created := some 1, user_id_redeemed := some 5, created_at := 0 }
      100).2 = false := by
  exact (claim_C9_delete_role_gate _ _ 100).2 5 rfl (by decide)

/-! ## Claim C1 — redemption validation order and effects -/

/-- C1 (amended): for every redeem call, an absent id fails with NotFound; an
id whose record has `user_id_redeemed` set fails with AlreadyRedeemed in any
state, including expired, leaving the store — and hence the first redeemer —
untouched; otherwise a record whose `expiry_date` is strictly earlier than the
call time fails with Expired with `user_id_redeemed` left null; only when none
of these hold (and the configured premium role resolves) is the store updated
to bind the record to the redeemer, after which the role grant is signalled.
A record whose `expiry_date` equals the call time is not treated as expired. -/
theorem claim_C1_redeem (db : Keys) (key : String) (uid : Nat) (now : Int)
    (roleExists : Bool) :
    (get_key db key = none →
      redeem_on_submit db key uid now roleExists =
        (RedeemResult.notFound, db, false)) ∧
    (∀ kd, get_key db key = some kd → truthy kd.user_id_redeemed = true →
      redeem_on_submit db key uid now roleExists =
        (RedeemResult.alreadyRedeemed, db, false)) ∧
    (∀ kd, get_key db key = some kd → truthy kd.user_id_redeemed = false →
      kd.expiry_date < now →
      redeem_on_submit db key uid now roleExists =
        (RedeemResult.expired, db, false)) ∧
    (∀ kd, get_key db key = some kd → truthy kd.user_id_redeemed = false →
      ¬ kd.expiry_date < now → roleExists = true →
      (redeem_on_submit db key uid now roleExists).1 = RedeemResult.success ∧
      dictGet (redeem_on_submit db key uid now roleExists).2.1 key =
        some { kd with user_id_redeemed := some uid } ∧
      (redeem_on_submit db key uid now roleExists).2.2 = true) := by
  refine ⟨?_, ?_, ?_, ?_⟩
  · intro h
    simp [redeem_on_submit, h]
  · intro kd h hred
    simp [redeem_on_submit, h, hred]
  · intro kd h hred hexp
    simp [redeem_on_submit, h, hred, hexp]
  · intro kd h hred hexp hrole
    subst hrole
    refine ⟨?_, ?_, ?_⟩
    · simp [redeem_on_submit, h, hred, hexp]
    · simp only [redeem_on_submit, h, hred, hexp]
      simp [update_key_redeemed, get_key] at h ⊢
      simp [h, dictGet_dictSet_self]
    · simp [redeem_on_submit, h, hred, hexp]

/-- C1 counterexample: the claim as stated demands failure with Expired
whenever `expiresAt <= now`; but the source tests `now > expiry_date`
strictly, so a never-redeemed record whose expiry equals the call time (both
100 here) is redeemed successfully and bound to the redeemer instead of
failing. -/
theorem claim_C1_counterexample :
    (redeem_on_submit [("k", { key := "k", duration_seconds := 60,
                               duration_str := "1m", expiry_date := 100,
                               user_id_created := some 1,
                               user_id_redeemed := none,
                               created_at := 40 })] "k" 9 100 true).1 =
      RedeemResult.success ∧
    dictGet (redeem_on_submit [("k", { key := "k", duration_seconds := 60,
                                       duration_str := "1m", expiry_date := 100,
                                       user_id_created := some 1,
                                       user_id_redeemed := none,
                                       created_at := 40 })] "k" 9 100 true).2.1 "k" =
      some { key := "k", duration_seconds := 60, duration_str := "1m",
             expiry_date := 100, user_id_created := some 1,
             user_id_redeemed := some 9, created_at := 40 } := by
  exact ⟨rfl, rfl⟩

/-- C1 witness: concrete applications of the four branches of the theorem:
missing key; already-redeemed (even expired) key with the first redeemer 5
preserved; expired unredeemed key left unredeemed; fresh key redeemed and
granted. -/
theorem claim_C1_witness :
    redeem_on_submit [] "k" 9 100 true = (RedeemResult.notFound, [], false) ∧
    redeem_on_submit [("k", { key := "k", duration_seconds := 60,
                              duration_str := "1m", expiry_date := 50,
                              user_id_created := some 1,
                              user_id_redeemed := some 5,
                              created_at := 0 })] "k" 9 100 true =
      (RedeemResult.alreadyRedeemed,
        [("k", { key := "k", duration_seconds := 60, duration_str := "1m",
                 expiry_date := 50, user_id_created := some 1,
                 user_id_redeemed := some 5, created_at := 0 })], false) ∧
    redeem_on_submit [("k", { key := "k", duration_seconds := 60,
                              duration_str := "1m", expiry_date := 50,
                              user_id_created := some 1,
                              user_id_redeemed := none,
                              created_at := 0 })] "k" 9 100 true =
      (RedeemResult.expired,
        [("k", { key := "k", duration_seconds := 60, duration_str := "1m",
                 expiry_date := 50, user_id_created := some 1,
                 user_id_redeemed := none, created_at := 0 })], false) ∧
    (redeem_on_submit [("k", { key := "k", duration_seconds := 60,
                               duration_str := "1m", expiry_date := 500,
                               user_id_created := some 1,
                               user_id_redeemed := none,
                               created_at := 0 })] "k" 9 100 true).1 =
      RedeemResult.success := by
  refine ⟨?_, ?_, ?_, ?_⟩
  · exact (claim_C1_redeem [] "k" 9 100 true).1 rfl
  · exact (claim_C1_redeem _ "k" 9 100 true).2.1 _ rfl (by decide)
  · exact (claim_C1_redeem _ "k" 9 100 true).2.2.1 _ rfl (by decide) (by decide)
  · exact ((claim_C1_redeem [("k", { key := "k", duration_seconds := 60,
                                     duration_str := "1m", expiry_date := 500,
                                     user_id_created := some 1,
                                     user_id_redeemed := none,
                                     created_at := 0 })] "k" 9 100 true).2.2.2
      { key := "k", duration_seconds := 60, duration_str := "1m",
        expiry_date := 500, user_id_created := some 1, user_id_redeemed := none,
        created_at := 0 } rfl (by decide) (by decide) rfl).1

/-! ## Synchronization lemmas -/

theorem sdjStep_other {json : Keys} {row : PremiumKey} {k : String} (now : Int)
    (h : row.key ≠ k) : dictGet (sdjStep now json row) k = dictGet json k := by
  unfold sdjStep
  cases hg : dictGet json row.key with
  | none => simp [add_key, dictGet_dictSet_ne _ _ _ _ (Ne.symm h)]
  | some jd =>
    by_cases hd : jd.user_id_redeemed != row.user_id_redeemed
    · simp [hd, dictGet_dictSet_ne _ _ _ _ (Ne.symm h)]
    · simp [hd]

theorem sdjStep_mono {json : Keys} {row : PremiumKey} {k : String} (now : Int)
    (h : (dictGet json k).isSome = true) :
    (dictGet (sdjStep now json row) k).isSome = true := by
  by_cases hrk : row.key = k
  · subst hrk
    unfold sdjStep
    cases hg : dictGet json row.key with
    | none => simp [hg] at h
    | some jd =>
      by_cases hd : jd.user_id_redeemed != row.user_id_redeemed
      · simp [hd, dictGet_dictSet_self]
      · simp [hd, hg]
  · rw [sdjStep_other now hrk]
    exact h

theorem sdjStep_self (now : Int) (json : Keys) (row : PremiumKey) :
    (dictGet (sdjStep now json row) row.key).isSome = true := by
  unfold sdjStep
  cases hg : dictGet json row.key with
  | none => simp [add_key, dictGet_dictSet_self]
  | some jd =>
    by_cases hd : jd.user_id_redeemed != row.user_id_redeemed
    · simp [hd, dictGet_dictSet_self]
    · simp [hd, hg]

theorem sdjStep_existing {json : Keys} {k : String} {jd : KeyData}
    (now : Int) (row : PremiumKey) (h : dictGet json k = some jd) :
    ∃ v, dictGet (sdjStep now json row) k =
      some { jd with user_id_redeemed := v } := by
  by_cases hrk : row.key = k
  · subst hrk
    unfold sdjStep
    rw [h]
    by_cases hd : jd.user_id_redeemed != row.user_id_redeemed
    · exact ⟨row.user_id_redeemed, by simp [hd, dictGet_dictSet_self]⟩
    · exact ⟨jd.user_id_redeemed, by simp [hd]; exact h⟩
  · exact ⟨jd.user_id_redeemed, by rw [sdjStep_other now hrk]; exact h⟩

theorem sync_db_to_json_mono (now : Int) (rows : List PremiumKey) :
    ∀ json k, (dictGet json k).isSome = true →
      (dictGet (sync_db_to_json json rows now) k).isSome = true := by
  induction rows with
  | nil => intro json k h; exact h
  | cons r rows ih => intro json k h; exact ih _ k (sdjStep_mono now h)

theorem sync_db_to_json_untouched (now : Int) (rows : List PremiumKey) :
    ∀ json k, (∀ r ∈ rows, r.key ≠ k) →
      dictGet (sync_db_to_json json rows now) k = dictGet json k := by
  induction rows with
  | nil => intro json k _; rfl
  | cons r rows ih =>
    intro json k h
    have h1 : r.key ≠ k := h r (by simp)
    have h2 := ih (sdjStep now json r) k (fun r' hr' => h r' (by simp [hr']))
    exact h2.trans (sdjStep_other now h1)

theorem sync_db_to_json_existing (now : Int) (rows : List PremiumKey) :
    ∀ json k jd, dictGet json k = some jd →
      ∃ v, dictGet (sync_db_to_json json rows now) k =
        some { jd with user_id_redeemed := v } := by
  induction rows with
  | nil => intro json k jd h; exact ⟨jd.user_id_redeemed, h⟩
  | cons r rows ih =>
    intro json k jd h
    obtain ⟨v1, h1⟩ := sdjStep_existing now r h
    obtain ⟨v2, h2⟩ := ih (sdjStep now json r) k _ h1
    exact ⟨v2, h2⟩

theorem sync_db_to_json_inserts (now : Int) (rows : List PremiumKey) :
    ∀ json row, row ∈ rows →
      (dictGet (sync_db_to_json json rows now) row.key).isSome = true := by
  induction rows with
  | nil => intro json row h; cases h
  | cons r rows ih =>
    intro json row h
    rcases List.mem_cons.mp h with rfl | h'
    · exact sync_db_to_json_mono now rows _ row.key (sdjStep_self now json row)
    · exact ih _ row h'

theorem sync_db_to_json_propagates (now : Int) (rows : List PremiumKey) :
    ∀ json row jd, rows.Pairwise (fun a b => a.key ≠ b.key) → row ∈ rows →
      dictGet json row.key = some jd →
      dictGet (sync_db_to_json json rows now) row.key =
        some { jd with user_id_redeemed := row.user_id_redeemed } := by
  induction rows with
  | nil => intro json row jd _ h; cases h
  | cons r rows ih =>
    intro json row jd hpw hmem h
    have hpw' := List.pairwise_cons.mp hpw
    rcases List.mem_cons.mp hmem with rfl | h'
    · have hstep : dictGet (sdjStep now json row) row.key =
          some { jd with user_id_redeemed := row.user_id_redeemed } := by
        unfold sdjStep
        rw [h]
        by_cases hd : jd.user_id_redeemed != row.user_id_redeemed
        · simp [hd, dictGet_dictSet_self]
        · have he : jd.user_id_redeemed = row.user_id_redeemed := by
            simpa using hd
          simp only [hd, Bool.false_eq_true, if_neg, not_false_eq_true]
          rw [← he]
          exact h
      have huntouched := sync_db_to_json_untouched now rows (sdjStep now json row)
        row.key (fun r' hr' => (hpw'.1 r' hr').symm)
      exact huntouched.trans hstep
    · have hne : r.key ≠ row.key := hpw'.1 row h'
      have h2 : dictGet (sdjStep now json r) row.key = some jd := by
        rw [sdjStep_other now hne]
        exact h
      exact ih _ row jd hpw'.2 h' h2

theorem sync_json_to_db_append (j : Keys) :
    ∀ d : List PremiumKey, ∃ tl, sync_json_to_db j d = d ++ tl := by
  induction j with
  | nil => intro d; exact ⟨[], by simp [sync_json_to_db]⟩
  | cons p j ih =>
    intro d
    by_cases hin : d.any (fun r => r.key == p.1)
    · obtain ⟨tl, htl⟩ := ih d
      refine ⟨tl, ?_⟩
      have : sync_json_to_db (p :: j) d = sync_json_to_db j d := by
        unfold sync_json_to_db
        rw [List.foldl_cons, if_pos hin]
      rw [this, htl]
    · obtain ⟨tl, htl⟩ := ih (d ++ [premiumRowOf p])
      refine ⟨premiumRowOf p :: tl, ?_⟩
      have : sync_json_to_db (p :: j) d =
          sync_json_to_db j (d ++ [premiumRowOf p]) := by
        unfold sync_json_to_db
        rw [List.foldl_cons, if_neg hin]
      rw [this, htl, List.append_assoc]
      rfl

theorem sync_json_to_db_mono (j : Keys) :
    ∀ (d : List PremiumKey) (k : String), d.any (fun r => r.key == k) = true →
      (sync_json_to_db j d).any (fun r => r.key == k) = true := by
  induction j with
  | nil => intro d k h; exact h
  | cons p j ih =>
    intro d k h
    by_cases hin : d.any (fun r => r.key == p.1)
    · have heq : sync_json_to_db (p :: j) d = sync_json_to_db j d := by
        unfold sync_json_to_db
        rw [List.foldl_cons, if_pos hin]
      rw [heq]
      exact ih d k h
    · have heq : sync_json_to_db (p :: j) d =
          sync_json_to_db j (d ++ [premiumRowOf p]) := by
        unfold sync_json_to_db
        rw [List.foldl_cons, if_neg hin]
      rw [heq]
      exact ih _ k (by simp [List.any_append, h])

theorem sync_json_to_db_inserts (j : Keys) :
    ∀ (d : List PremiumKey) (p : String × KeyData), p ∈ j →
      (sync_json_to_db j d).any (fun r => r.key == p.1) = true := by
  induction j with
  | nil => intro d p h; cases h
  | cons p0 j ih =>
    intro d p h
    rcases List.mem_cons.mp h with rfl | h'
    · by_cases hin : d.any (fun r => r.key == p.1)
      · have heq : sync_json_to_db (p :: j) d = sync_json_to_db j d := by
          unfold sync_json_to_db
          rw [List.foldl_cons, if_pos hin]
        rw [heq]
        exact sync_json_to_db_mono j d p.1 hin
      · have heq : sync_json_to_db (p :: j) d =
            sync_json_to_db j (d ++ [premiumRowOf p]) := by
          unfold sync_json_to_db
          rw [List.foldl_cons, if_neg hin]
        rw [heq]
        exact sync_json_to_db_mono j _ p.1 (by simp [List.any_append, premiumRowOf])
    · by_cases hin : d.any (fun r => r.key == p0.1)
      · have heq : sync_json_to_db (p0 :: j) d = sync_json_to_db j d := by
          unfold sync_json_to_db
          rw [List.foldl_cons, if_pos hin]
        rw [heq]
        exact ih d p h'
      · have heq : sync_json_to_db (p0 :: j) d =
            sync_json_to_db j (d ++ [premiumRowOf p0]) := by
          unfold sync_json_to_db
          rw [List.foldl_cons, if_neg hin]
        rw [heq]
        exact ih _ p h'

/-! ## Claim C3 — redeemedBy monotonicity -/

/-- C3 (amended): under redemption and duration updates, `user_id_redeemed`
transitions only from null to a set value: the redemption flow leaves every
record whose id is set (truthy) exactly as it was, binds an unset record to
the redeemer only when it passed validation, and duration updates never touch
the field of any record. Store-to-store synchronization, however, is excluded:
`sync_db_to_json` copies the secondary store's `user_id_redeemed` over the
authoritative record whenever the two differ, which can clear a set value or
change it to a different user. -/
theorem claim_C3_redeemed_monotone :
    (∀ (db : Keys) (key : String) (uid : Nat) (now : Int) (roleExists : Bool)
        (k' : String) (d' : KeyData), dictGet db k' = some d' →
      truthy d'.user_id_redeemed = true →
      dictGet (redeem_on_submit db key uid now roleExists).2.1 k' = some d') ∧
    (∀ (db : Keys) (key : String) (uid : Nat) (now : Int) (kd : KeyData),
      dictGet db key = some kd → truthy kd.user_id_redeemed = false →
      ¬ kd.expiry_date < now →
      dictGet (redeem_on_submit db key uid now true).2.1 key =
        some { kd with user_id_redeemed := some uid }) ∧
    (∀ (db : Keys) (k : String) (dur : Nat) (exp : Int) (k' : String),
      Option.map (fun d => d.user_id_redeemed)
          (dictGet (update_key_duration db k dur exp).2 k') =
        Option.map (fun d => d.user_id_redeemed) (dictGet db k')) := by
  refine ⟨?_, ?_, ?_⟩
  · intro db key uid now roleExists k' d' h ht
    unfold redeem_on_submit
    cases hg : get_key db key with
    | none => simpa using h
    | some kd =>
      by_cases hred : truthy kd.user_id_redeemed
      · simpa [hred] using h
      · by_cases hexp : kd.expiry_date < now
        · simpa [hred, hexp] using h
        · by_cases hrole : roleExists
          · have hgd : dictGet db key = some kd := hg
            simp only [hred, hexp, hrole, Bool.not_true, if_neg, if_pos,
              Bool.false_eq_true, not_false_eq_true, ite_false, ite_true]
            simp only [update_key_redeemed, hgd]
            by_cases hk : k' = key
            · subst hk
              rw [h] at hgd
              cases Option.some.inj hgd
              exact absurd ht hred
            · rw [dictGet_dictSet_ne _ _ _ _ hk]
              exact h
          · simpa [hred, hexp, hrole] using h
  · intro db key uid now kd h hred hexp
    have hg : get_key db key = some kd := h
    simp only [redeem_on_submit, hg, hred, hexp, Bool.not_true, if_neg, if_pos,
      Bool.false_eq_true, not_false_eq_true, ite_false, ite_true]
    simp [update_key_redeemed, h, dictGet_dictSet_self]
  · intro db k dur exp k'
    unfold update_key_duration
    cases hg : dictGet db k with
    | none => simp
    | some d =>
      by_cases hk : k' = k
      · subst hk
        simp [dictGet_dictSet_self, hg]
      · simp [dictGet_dictSet_ne _ _ _ _ hk]

/-- C3 counterexample: the claim as stated includes store-to-store
synchronization among the operations that never clear a set redeemedBy; but
syncing a secondary row with a null `user_id_redeemed` over a JSON record
redeemed by user 5 clears the field back to null. -/
theorem claim_C3_counterexample :
    dictGet (sync_db_to_json
        [("k", { key := "k", duration_seconds := 60, duration_str := "1m",
                 expiry_date := 500, user_id_created := some 1,
                 user_id_redeemed := some 5, created_at := 0 })]
        [{ key := "k", duration_seconds := 60, duration_str := "1m",
           created_at := 0, expiry_date := 500, user_id_created := some 1,
           user_id_redeemed := none }] 7) "k" =
      some { key := "k", duration_seconds := 60, duration_str := "1m",
             expiry_date := 500, user_id_created := some 1,
             user_id_redeemed := none, created_at := 0 } := by
  decide

/-- C3 witness: concrete applications of the three parts of the theorem: a
redeemed record survives a second redemption attempt unchanged, an unredeemed
valid record is bound to the redeemer, and a duration update keeps the
redeemedBy of the record it rewrites. -/
theorem claim_C3_witness :
    dictGet (redeem_on_submit [("k", { key := "k", duration_seconds := 60,
                                       duration_str := "1m", expiry_date := 50,
                                       user_id_created := some 1,
                                       user_id_redeemed := some 5,
                                       created_at := 0 })] "k" 9 100 true).2.1 "k" =
      some { key := "k", duration_seconds := 60, duration_str := "1m",
             expiry_date := 50, user_id_created := some 1,
             user_id_redeemed := some 5, created_at := 0 } ∧
    dictGet (redeem_on_submit [("k", { key := "k", duration_seconds := 60,
                                       duration_str := "1m", expiry_date := 500,
                                       user_id_created := some 1,
                                       user_id_redeemed := none,
                                       created_at := 0 })] "k" 9 100 true).2.1 "k" =
      some { key := "k", duration_seconds := 60, duration_str := "1m",
             expiry_date := 500, user_id_created := some 1,
             user_id_redeemed := some 9, created_at := 0 } ∧
    Option.map (fun d => d.user_id_redeemed)
        (dictGet (update_key_duration [("k", { key := "k", duration_seconds := 60,
                                               duration_str := "1m",
                                               expiry_date := 50,
                                               user_id_created := some 1,
                                               user_id_redeemed := some 5,
                                               created_at := 0 })] "k" 7200 9000).2 "k") =
      Option.map (fun d => d.user_id_redeemed)
        (dictGet [("k", { key := "k", duration_seconds := 60, duration_str := "1m",
                          expiry_date := 50, user_id_created := some 1,
                          user_id_redeemed := some 5, created_at := 0 })] "k") := by
  refine ⟨?_, ?_, ?_⟩
  · exact claim_C3_redeemed_monotone.1 _ "k" 9 100 true "k" _ rfl (by decide)
  · exact claim_C3_redeemed_monotone.2.1
      [("k", { key := "k", duration_seconds := 60, duration_str := "1m",
               expiry_date := 500, user_id_created := some 1,
               user_id_redeemed := none, created_at := 0 })] "k" 9 100
      { key := "k", duration_seconds := 60, duration_str := "1m",
        expiry_date := 500, user_id_created := some 1, user_id_redeemed := none,
        created_at := 0 } rfl (by decide) (by decide)
  · exact claim_C3_redeemed_monotone.2.2 _ "k" 7200 9000 "k"

/-! ## Claim C4 — sync asymmetry -/

/-- C4 (amended): the two sync directions are asymmetric, but with the roles
reversed from the claim. Outbound sync from the authoritative JSON store to
the secondary relational store (`sync_json_to_db`) is additive-only: every
existing secondary row is preserved verbatim — its redeemedBy included — and
every JSON record's key is present afterwards. Inbound sync from the secondary
store to the authoritative one (`sync_db_to_json`) inserts every row whose key
is absent and additionally propagates the rows' `user_id_redeemed` onto
existing authoritative records, updating no other field of them. -/
theorem claim_C4_sync_asymmetry :
    (∀ (json : Keys) (dbRows : List PremiumKey),
      ∃ tl, sync_json_to_db json dbRows = dbRows ++ tl) ∧
    (∀ (json : Keys) (dbRows : List PremiumKey) (p : String × KeyData), p ∈ json →
      (sync_json_to_db json dbRows).any (fun r => r.key == p.1) = true) ∧
    (∀ (json : Keys) (dbRows : List PremiumKey) (now : Int) (k : String)
        (jd : KeyData), dictGet json k = some jd →
      ∃ v, dictGet (sync_db_to_json json dbRows now) k =
        some { jd with user_id_redeemed := v }) ∧
    (∀ (json : Keys) (dbRows : List PremiumKey) (now : Int) (row : PremiumKey),
      row ∈ dbRows →
      (dictGet (sync_db_to_json json dbRows now) row.key).isSome = true) ∧
    (∀ (json : Keys) (dbRows : List PremiumKey) (now : Int) (row : PremiumKey)
        (jd : KeyData), dbRows.Pairwise (fun a b => a.key ≠ b.key) →
      row ∈ dbRows → dictGet json row.key = some jd →
      dictGet (sync_db_to_json json dbRows now) row.key =
        some { jd with user_id_redeemed := row.user_id_redeemed }) := by
  refine ⟨?_, ?_, ?_, ?_, ?_⟩
  · intro json dbRows
    exact sync_json_to_db_append json dbRows
  · intro json dbRows p h
    exact sync_json_to_db_inserts json dbRows p h
  · intro json dbRows now k jd h
    exact sync_db_to_json_existing now dbRows json k jd h
  · intro json dbRows now row h
    exact sync_db_to_json_inserts now dbRows json row h
  · intro json dbRows now row jd hpw hmem h
    exact sync_db_to_json_propagates now dbRows json row jd hpw hmem h

/-- C4 counterexample: the claim as stated orients the asymmetry the other way
round. Outbound sync (authoritative JSON to secondary store) does not
propagate redeemedBy onto an existing secondary row: with the JSON record
redeemed by user 7 and the secondary row still null, the secondary row is left
untouched. Inbound sync (secondary to authoritative), which the claim says
never overwrites any field, does overwrite the authoritative record's
redeemedBy with the secondary value, here clearing user 7 to null. -/
theorem claim_C4_counterexample :
    sync_json_to_db
        [("q", { key := "q", duration_seconds := 60, duration_str := "1m",
                 expiry_date := 300, user_id_created := some 1,
                 user_id_redeemed := some 7, created_at := 2 })]
        [{ key := "q", duration_seconds := 60, duration_str := "1m",
           created_at := 2, expiry_date := 300, user_id_created := some 1,
           user_id_redeemed := none }] =
      [{ key := "q", duration_seconds := 60, duration_str := "1m",
         created_at := 2, expiry_date := 300, user_id_created := some 1,
         user_id_redeemed := none }] ∧
    dictGet (sync_db_to_json
        [("q", { key := "q", duration_seconds := 60, duration_str := "1m",
                 expiry_date := 300, user_id_created := some 1,
                 user_id_redeemed := some 7, created_at := 2 })]
        [{ key := "q", duration_seconds := 60, duration_str := "1m",
           created_at := 2, expiry_date := 300, user_id_created := some 1,
           user_id_redeemed := none }] 3) "q" =
      some { key := "q", duration_seconds := 60, duration_str := "1m",
             expiry_date := 300, user_id_created := some 1,
             user_id_redeemed := none, created_at := 2 } := by
  exact ⟨by decide, by decide⟩

/-- C4 witness: concrete applications of the quantified parts of the theorem
on a one-record JSON store and a one-row secondary store with the same key. -/
theorem claim_C4_witness :
    (∃ tl, sync_json_to_db
        [("w", { key := "w", duration_seconds := 60, duration_str := "1m",
                 expiry_date := 300, user_id_created := none,
                 user_id_redeemed := some 4, created_at := 2 })] [] = [] ++ tl) ∧
    (sync_json_to_db
        [("w", { key := "w", duration_seconds := 60, duration_str := "1m",
                 expiry_date := 300, user_id_created := none,
                 user_id_redeemed := some 4, created_at := 2 })] []).any
      (fun r => r.key == "w") = true ∧
    (dictGet (sync_db_to_json []
        [{ key := "w", duration_seconds := 60, duration_str := "1m",
           created_at := 2, expiry_date := 300, user_id_created := none,
           user_id_redeemed := some 4 }] 3) "w").isSome = true ∧
    dictGet (sync_db_to_json
        [("w", { key := "w", duration_seconds := 60, duration_str := "1m",
                 expiry_date := 300, user_id_created := none,
                 user_id_redeemed := none, created_at := 2 })]
        [{ key := "w", duration_seconds := 60, duration_str := "1m",
           created_at := 2, expiry_date := 300, user_id_created := none,
           user_id_redeemed := some 4 }] 3) "w" =
      some { key := "w", duration_seconds := 60, duration_str := "1m",
             expiry_date := 300, user_id_created := none,
             user_id_redeemed := some 4, created_at := 2 } := by
  refine ⟨?_, ?_, ?_, ?_⟩
  · exact claim_C4_sync_asymmetry.1 _ []
  · exact claim_C4_sync_asymmetry.2.1
      [("w", { key := "w", duration_seconds := 60, duration_str := "1m",
               expiry_date := 300, user_id_created := none,
               user_id_redeemed := some 4, created_at := 2 })] []
      ("w", { key := "w", duration_seconds := 60, duration_str := "1m",
              expiry_date := 300, user_id_created := none,
              user_id_redeemed := some 4, created_at := 2 }) (by simp)
  · exact claim_C4_sync_asymmetry.2.2.2.1 []
      [{ key := "w", duration_seconds := 60, duration_str := "1m",
         created_at := 2, expiry_date := 300, user_id_created := none,
         user_id_redeemed := some 4 }] 3
      { key := "w", duration_seconds := 60, duration_str := "1m",
        created_at := 2, expiry_date := 300, user_id_created := none,
        user_id_redeemed := some 4 } (by simp)
  · exact claim_C4_sync_asymmetry.2.2.2.2
      [("w", { key := "w", duration_seconds := 60, duration_str := "1m",
               expiry_date := 300, user_id_created := none,
               user_id_redeemed := none, created_at := 2 })]
      [{ key := "w", duration_seconds := 60, duration_str := "1m",
         created_at := 2, expiry_date := 300, user_id_created := none,
         user_id_redeemed := some 4 }] 3
      { key := "w", duration_seconds := 60, duration_str := "1m",
        created_at := 2, expiry_date := 300, user_id_created := none,
        user_id_redeemed := some 4 }
      { key := "w", duration_seconds := 60, duration_str := "1m",
        expiry_date := 300, user_id_created := none, user_id_redeemed := none,
        created_at := 2 }
      (by simp) (by simp) rfl
